import Mathlib

/-!
# Verification of `src/js/script.js` (Nilesh Construction site interactivity)

Shallow embedding of the page-interaction controller: field validation
(`validateField`), form submission (`handleFormSubmit` / `showFormMessage`),
project filtering (`initProjectFilter`'s click handler), the FAQ accordion
(`initFAQAccordion`'s click handler), and the scroll-reveal logic
(`initScrollAnimations` / `handleScrollAnimations` and the debounced scroll
listener).

Strings are Lean `String`s; the DOM elements the handlers touch are modelled
as explicit records; absence of an optional DOM element is an `Option` being
`none`; a JavaScript runtime exception is an `Except.error`.
-/

namespace Nilesh

/-- The character class of the JavaScript regex token `\s` (whitespace), over
the code points relevant here: space, tab, LF, CR, VT, FF, NBSP, line/paragraph
separators and the BOM. -/
def jsWhitespace (c : Char) : Bool :=
  c == ' ' || c == '\t' || c == '\n' || c == '\r' || c == '\x0b' || c == '\x0c' ||
  c == '\u00A0' || c == '\u2028' || c == '\u2029' || c == '\uFEFF'

/-- `String.prototype.trim()`: strip leading and trailing whitespace. -/
def jsTrim (s : String) : String :=
  ⟨((s.data.dropWhile jsWhitespace).reverse.dropWhile jsWhitespace).reverse⟩

/-- The character class `[^\s@]` of the email regex at line 155. -/
def emailChar (c : Char) : Bool :=
  !jsWhitespace c && c != '@'

/-- Backtracking matcher for `p+` followed by a continuation `k`: succeeds
iff the list splits as a non-empty all-`p` prefix followed by a suffix
accepted by `k`. -/
def matchPlusThen (p : Char → Bool) (k : List Char → Bool) : List Char → Bool
  | [] => false
  | c :: cs => p c && (k cs || matchPlusThen p k cs)

/-- Suffix matcher for `\.[^\s@]+$` (a dot, then a non-empty run, then end). -/
def emailTailDot : List Char → Bool
  | [] => false
  | c :: rest => c == '.' && matchPlusThen emailChar List.isEmpty rest

/-- Suffix matcher for `@[^\s@]+\.[^\s@]+$`. -/
def emailTailAt : List Char → Bool
  | [] => false
  | c :: rest => c == '@' && matchPlusThen emailChar emailTailDot rest

/-- `emailRegex.test(s)` for `emailRegex = /^[^\s@]+@[^\s@]+\.[^\s@]+$/`
(line 155 of `script.js`). -/
def emailTest (s : String) : Bool :=
  matchPlusThen emailChar emailTailAt s.data

/-- The character class `[\d\s\-\+\(\)]` of the phone regex at line 164. -/
def phoneChar (c : Char) : Bool :=
  c.isDigit || jsWhitespace c || c == '-' || c == '+' || c == '(' || c == ')'

/-- `phoneRegex.test(s)` for `phoneRegex = /^[\d\s\-\+\(\)]{10,15}$/`
(line 164 of `script.js`): the whole string is 10 to 15 characters from the
class. -/
def phoneTest (s : String) : Bool :=
  decide (10 ≤ s.data.length) && decide (s.data.length ≤ 15) && s.data.all phoneChar

/-- A form field as `validateField` sees it: the `required` attribute, the
`type` attribute (a string, e.g. `"email"`, `"tel"`, `"text"`), the current
`value`, and the text of the adjacent `.error-message` element (`none` when
the wrapper has no such element). -/
structure Field where
  required : Bool
  type : String
  value : String
  errorSlot : Option String
  deriving Repr, DecidableEq

/-- Result of `validateField`: the returned boolean, and the state of the
field's error slot after the call. -/
structure ValidationOutcome where
  valid : Bool
  errorSlot : Option String
  deriving Repr, DecidableEq

/-- The `isValid` / `errorMessage` chain of `validateField`
(lines 144–169): required check, then email format, then phone format. -/
def validationCore (f : Field) : Bool × String :=
  if f.required && (jsTrim f.value == "") then
    (false, "This field is required")
  else if f.type == "email" && (jsTrim f.value != "") then
    if !emailTest (jsTrim f.value) then (false, "Please enter a valid email address")
    else (true, "")
  else if f.type == "tel" && (jsTrim f.value != "") then
    if !phoneTest (jsTrim f.value) then (false, "Please enter a valid phone number")
    else (true, "")
  else (true, "")

/-- `validateField(field)` (lines 135–179).  An empty non-required field
returns `true` early, before the error slot is touched (lines 140–142);
otherwise the outcome of `validationCore` is written to the error slot when
one exists: the message on failure, the empty string on success
(lines 171–176). -/
def validateField (f : Field) : ValidationOutcome :=
  if !f.required && (jsTrim f.value == "") then
    { valid := true, errorSlot := f.errorSlot }
  else
    let r := validationCore f
    { valid := r.1,
      errorSlot :=
        match f.errorSlot with
        | none => none
        | some _ => if !r.1 then some r.2 else some "" }

/-! ## Form submission (`handleFormSubmit`, lines 185–230, and
`showFormMessage`, lines 238–258) -/

/-- The `type` argument of `showFormMessage`: `'info'`, `'success'` or
`'error'`. -/
inductive MsgType
  | info
  | success
  | error
  deriving Repr, DecidableEq

/-- The `#formMessage` element: its text content and the kind of styling the
last `showFormMessage` call applied (`none` before any call). -/
structure MsgRegion where
  text : String
  kind : Option MsgType
  deriving Repr, DecidableEq

/-- The message shown on the valid path before the delay (line 208). -/
def sendingText : String := "Sending your message..."

/-- The aggregate banner shown when validation fails (line 203). -/
def errorBannerText : String := "Please correct the errors in the form."

/-- The fixed thank-you message shown after the delay (line 222). -/
def thankYouText : String :=
  "Thank you for your message! We will respond to your inquiry within 24 hours."

/-- `showFormMessage(element, message, type)` (lines 238–258): when the
element is absent (`if (!element) return;`) nothing happens; otherwise the
text is replaced and the styling for `type` applied. -/
def showFormMessage (region : Option MsgRegion) (message : String) (type : MsgType) :
    Option MsgRegion :=
  match region with
  | none => none
  | some _ => some { text := message, kind := some type }

/-- One DOM-mutating step of `handleFormSubmit`, in execution order. -/
inductive SubmitAction
  | showMessage (message : String) (type : MsgType)
  | resetForm
  | scrollIntoView
  deriving Repr, DecidableEq

/-- The timed trace of `handleFormSubmit` on a form whose required-field
validation verdict is already known: the steps run synchronously, and the
steps a `setTimeout` schedules, with its delay in milliseconds. -/
structure SubmitTrace where
  immediate : List SubmitAction
  delayed : Option (Nat × List SubmitAction)
  deriving Repr, DecidableEq

/-- The accumulated verdict of the `requiredFields.forEach` loop
(lines 193–200): every field carrying the `required` attribute passed
`validateField`. -/
def formAllRequiredValid (fields : List Field) : Bool :=
  (fields.filter (·.required)).all fun f => (validateField f).valid

/-- The trace of actions `handleFormSubmit` performs after the validation
loop (lines 202–229): on failure, the error banner and an immediate return;
on success, the sending banner, then at 1500 ms the success banner,
`form.reset()`, and `formMessage.scrollIntoView(...)`. -/
def handleFormSubmit (fields : List Field) : SubmitTrace :=
  if !formAllRequiredValid fields then
    { immediate := [.showMessage errorBannerText .error], delayed := none }
  else
    { immediate := [.showMessage sendingText .info],
      delayed := some (1500,
        [.showMessage thankYouText .success, .resetForm, .scrollIntoView]) }

/-- The page state the submission handler touches: the form's fields and the
`#formMessage` element (`none` when the markup has no such element). -/
structure FormPage where
  fields : List Field
  msgRegion : Option MsgRegion
  deriving Repr, DecidableEq

/-- A JavaScript runtime exception surfaced by a handler. -/
inductive JsError
  | typeError
  deriving Repr, DecidableEq

/-- Effect of one `SubmitAction` on the page.  `showFormMessage` tolerates an
absent region; `form.reset()` restores every control's default value —
modelled from the spec: the markup (not under `src/`) gives the contact form
controls empty defaults, so reset clears every field value; but
`formMessage.scrollIntoView(...)` (line 228) dereferences `formMessage` with
no null guard and throws a `TypeError` when the region is absent. -/
def runSubmitAction (p : FormPage) : SubmitAction → Except JsError FormPage
  | .showMessage m t => .ok { p with msgRegion := showFormMessage p.msgRegion m t }
  | .resetForm => .ok { p with fields := p.fields.map fun f => { f with value := "" } }
  | .scrollIntoView =>
      match p.msgRegion with
      | none => .error .typeError
      | some _ => .ok p

/-- Run a list of submit actions in order, stopping at the first exception. -/
def runActions (p : FormPage) : List SubmitAction → Except JsError FormPage
  | [] => .ok p
  | a :: rest =>
      match runSubmitAction p a with
      | .error e => .error e
      | .ok p2 => runActions p2 rest

/-- The side effect of the validation loop (lines 196–200): each required
field's error slot is rewritten by `validateField`; other fields are not
visited. -/
def validateRequiredPhase (p : FormPage) : FormPage :=
  { p with
    fields := p.fields.map fun f =>
      if f.required then { f with errorSlot := (validateField f).errorSlot } else f }

/-- The whole run of one submission: the page after the synchronous part of
`handleFormSubmit`, and the page after the scheduled timeout (if any) has
fired. -/
def runSubmit (p : FormPage) : Except JsError FormPage × Except JsError FormPage :=
  let p1 := validateRequiredPhase p
  let tr := handleFormSubmit p.fields
  match runActions p1 tr.immediate with
  | .error e => (.error e, .error e)
  | .ok p2 =>
      (.ok p2,
        match tr.delayed with
        | none => .ok p2
        | some (_, acts) => runActions p2 acts)

/-! ## Project filtering (`initProjectFilter`, lines 265–299) -/

/-- The inline styles of a `.project-item` that the filter click handler
writes. -/
structure ItemStyle where
  display : String
  opacity : String
  transform : String
  deriving Repr, DecidableEq

/-- The show condition of the filter handler (line 283):
`filterValue === 'all' || categories.includes(filterValue)` where
`categories = item.getAttribute('data-category').split(' ')`. -/
def filterShows (tag category : String) : Bool :=
  tag == "all" || (category.splitOn " ").contains tag

/-- An item's style once the filter's scheduled timeouts have fired
(lines 283–295): a shown item gets `display:block` at once and
`opacity:1; transform:scale(1)` after the 10 ms tick; a hidden item gets
`opacity:0; transform:scale(0.8)` at once and `display:none` after 300 ms. -/
def applyFilterSettled (tag category : String) (s : ItemStyle) : ItemStyle :=
  if filterShows tag category then
    { display := "block", opacity := "1", transform := "scale(1)" }
  else
    { s with display := "none", opacity := "0", transform := "scale(0.8)" }

/-! ## FAQ accordion (`initFAQAccordion`, lines 306–337) -/

/-- One question/answer pair: the `active` classes of the question and of the
answer, the answer's inline `max-height` (in px, `none` for the `null`
assignment), and the answer's natural `scrollHeight`. -/
structure FaqPane where
  qActive : Bool
  aActive : Bool
  maxHeight : Option Nat
  scrollHeight : Nat
  deriving Repr, DecidableEq

/-- Effect of the click handler on the clicked pane (lines 312–324): the
question's `active` class is toggled, and the answer is collapsed if it was
expanded, expanded to its `scrollHeight` otherwise. -/
def clickedPane (p : FaqPane) : FaqPane :=
  if p.aActive then
    { p with qActive := !p.qActive, aActive := false, maxHeight := none }
  else
    { p with qActive := !p.qActive, aActive := true, maxHeight := some p.scrollHeight }

/-- Effect of the close-others loop on a non-clicked pane (lines 327–334):
panes whose question carries the `active` class are fully collapsed, others
are untouched. -/
def otherPane (p : FaqPane) : FaqPane :=
  if p.qActive then
    { p with qActive := false, aActive := false, maxHeight := none }
  else p

/-- One click on question `i` (0-based): the clicked pane is toggled and
every other pane goes through the close-others loop.  A click beyond the list
touches nothing it cannot reach. -/
def faqClick : Nat → List FaqPane → List FaqPane
  | _, [] => []
  | 0, p :: ps => clickedPane p :: ps.map otherPane
  | i + 1, p :: ps => otherPane p :: faqClick i ps

/-- The accordion as the markup loads it: no `active` classes, no inline
`max-height`; one pane per answer `scrollHeight`. -/
def initPanes (hs : List Nat) : List FaqPane :=
  hs.map fun h => { qActive := false, aActive := false, maxHeight := none, scrollHeight := h }

/-- Every pane's question class agrees with its answer class (the handler
always toggles them together). -/
def allSynced (panes : List FaqPane) : Bool :=
  panes.all fun p => p.qActive == p.aActive

/-- Number of expanded answers. -/
def expandedCount (panes : List FaqPane) : Nat :=
  panes.countP (·.aActive)

/-! ## Scroll reveal (`initScrollAnimations` lines 344–353,
`handleScrollAnimations` lines 358–370, debounced listener lines 426–430)

`getBoundingClientRect().top`, `window.innerWidth`, `window.innerHeight` and
the `1.2` divisor are JavaScript doubles; they are modelled as rationals,
which is faithful for every comparison the claims are about. -/

/-- The inline styles of a tracked element that the reveal logic writes. -/
structure ElemStyle where
  opacity : String
  transform : String
  deriving Repr, DecidableEq

/-- The per-element body of `handleScrollAnimations` (lines 361–369): if the
element's top is above `innerHeight / 1.2`, set `opacity:1` and
`transform:translateY(0)`; otherwise leave the element alone. -/
def revealStep (innerHeight top : ℚ) (s : ElemStyle) : ElemStyle :=
  if top < innerHeight / (6 / 5 : ℚ) then
    { opacity := "1", transform := "translateY(0)" }
  else s

/-- One invocation of `handleScrollAnimations` over the tracked elements,
each given as its current rect top paired with its style. -/
def handleScrollAnimations (innerHeight : ℚ) (es : List (ℚ × ElemStyle)) :
    List (ℚ × ElemStyle) :=
  es.map fun e => (e.1, revealStep innerHeight e.1 e.2)

/-- `initScrollAnimations` (lines 344–353) attaches the direct scroll
listener and performs the on-load invocation only under this guard:
`window.innerWidth > 768`. -/
def initScrollAttached (innerWidth : ℚ) : Bool :=
  decide (innerWidth > 768)

/-- The scroll-reveal state for one tracked element: the viewport metrics,
the element's current rect top, its style, and whether the debounce timer of
the unconditional listener (lines 426–430) is pending. -/
structure ScrollState where
  innerWidth : ℚ
  innerHeight : ℚ
  top : ℚ
  style : ElemStyle
  debouncePending : Bool
  deriving DecidableEq

/-- Processing one `scroll` event: the direct listener (attached only when
`initScrollAttached`) runs `handleScrollAnimations` at once; the
unconditional debounced listener (line 427) clears any pending timer and
schedules a new 100 ms trailing one. -/
def onScrollEvent (s : ScrollState) : ScrollState :=
  let s1 :=
    if initScrollAttached s.innerWidth then
      { s with style := revealStep s.innerHeight s.top s.style }
    else s
  { s1 with debouncePending := true }

/-- The 100 ms trailing debounce timer firing: runs `handleScrollAnimations`
(line 429) regardless of viewport width. -/
def onDebounceFire (s : ScrollState) : ScrollState :=
  if s.debouncePending then
    { s with style := revealStep s.innerHeight s.top s.style, debouncePending := false }
  else s

/-- The once-on-load invocation inside `initScrollAnimations` (line 351):
runs only under the width guard. -/
def onInitialLoad (s : ScrollState) : ScrollState :=
  if initScrollAttached s.innerWidth then
    { s with style := revealStep s.innerHeight s.top s.style }
  else s

/-- A tracked element counts as revealed once it carries exactly the styles
the reveal logic writes. -/
def revealedStyle (s : ElemStyle) : Bool :=
  s.opacity == "1" && s.transform == "translateY(0)"

/-! ## The spec's own characterisations (for the refinement claims)

These two definitions follow the specification's words, not the code; they
exist to be compared with `emailTest` / `phoneTest`. -/

/-- The spec's characterisation of a valid email value: at least one `@`, at
least one `.` after it, and no whitespace. -/
def specEmailGloss (s : String) : Bool :=
  (match s.data.dropWhile (fun c => c != '@') with
   | [] => false
   | _ :: rest => rest.contains '.') &&
  s.data.all fun c => !jsWhitespace c

/-- The spec's characterisation of a valid phone value: 10 to 15 characters,
drawn only from digits, the space character, `-`, `+`, `(` and `)`. -/
def specPhoneGloss (s : String) : Bool :=
  decide (10 ≤ s.data.length) && decide (s.data.length ≤ 15) &&
  s.data.all fun c => c.isDigit || c == ' ' || c == '-' || c == '+' || c == '(' || c == ')'

/-! ## Helper lemmas -/

theorem matchPlusThen_iff (p : Char → Bool) (k : List Char → Bool) (l : List Char) :
    matchPlusThen p k l = true ↔
      ∃ x y, l = x ++ y ∧ x ≠ [] ∧ x.all p = true ∧ k y = true := by
  induction l with
  | nil =>
      constructor
      · intro h; simp [matchPlusThen] at h
      · rintro ⟨x, y, h, hx, -, -⟩
        exact absurd (List.append_eq_nil.mp h.symm).1 hx
  | cons c cs ih =>
      constructor
      · intro h
        simp only [matchPlusThen, Bool.and_eq_true, Bool.or_eq_true] at h
        obtain ⟨hpc, hk | hrec⟩ := h
        · exact ⟨[c], cs, rfl, by simp, by simp [hpc], hk⟩
        · obtain ⟨x, y, hl, hx, hall, hky⟩ := ih.mp hrec
          exact ⟨c :: x, y, by rw [hl]; rfl, by simp, by simp [List.all_cons, hpc, hall], hky⟩
      · rintro ⟨x, y, hl, hx, hall, hky⟩
        cases x with
        | nil => exact absurd rfl hx
        | cons a x' =>
            rw [List.cons_append] at hl
            obtain ⟨rfl, hcs⟩ := List.cons.inj hl
            have hpc : p c = true := by
              simp only [List.all_cons, Bool.and_eq_true] at hall
              exact hall.1
            have hall' : x'.all p = true := by
              simp only [List.all_cons, Bool.and_eq_true] at hall
              exact hall.2
            cases x' with
            | nil =>
                simp only [List.nil_append] at hcs
                subst hcs
                simp [matchPlusThen, hpc, hky]
            | cons b x'' =>
                have : matchPlusThen p k cs = true :=
                  ih.mpr ⟨b :: x'', y, hcs, by simp, hall', hky⟩
                simp [matchPlusThen, hpc, this]

theorem emailTailDot_iff (l : List Char) :
    emailTailDot l = true ↔
      ∃ c', l = '.' :: c' ∧ c' ≠ [] ∧ c'.all emailChar = true := by
  cases l with
  | nil => simp [emailTailDot]
  | cons c rest =>
      simp only [emailTailDot, Bool.and_eq_true, beq_iff_eq]
      constructor
      · rintro ⟨rfl, h⟩
        obtain ⟨x, y, rfl, hx, hall, hy⟩ := (matchPlusThen_iff _ _ _).mp h
        have hy' : y = [] := List.isEmpty_iff.mp hy
        subst hy'
        exact ⟨x, by simp, hx, hall⟩
      · rintro ⟨c', hl, hne, hall⟩
        obtain ⟨rfl, rfl⟩ := List.cons.inj hl
        exact ⟨rfl, (matchPlusThen_iff _ _ _).mpr ⟨rest, [], by simp, hne, hall, by simp⟩⟩

theorem emailTailAt_iff (l : List Char) :
    emailTailAt l = true ↔
      ∃ b c, l = '@' :: (b ++ '.' :: c) ∧ b ≠ [] ∧ c ≠ [] ∧
        b.all emailChar = true ∧ c.all emailChar = true := by
  cases l with
  | nil => simp [emailTailAt]
  | cons a rest =>
      simp only [emailTailAt, Bool.and_eq_true, beq_iff_eq]
      constructor
      · rintro ⟨rfl, h⟩
        obtain ⟨x, y, rfl, hx, hall, hy⟩ := (matchPlusThen_iff _ _ _).mp h
        obtain ⟨c', rfl, hc', hallc⟩ := (emailTailDot_iff _).mp hy
        exact ⟨x, c', rfl, hx, hc', hall, hallc⟩
      · rintro ⟨b, c, hl, hb, hc, hallb, hallc⟩
        obtain ⟨rfl, rfl⟩ := List.cons.inj hl
        refine ⟨rfl, (matchPlusThen_iff _ _ _).mpr ⟨b, '.' :: c, rfl, hb, hallb, ?_⟩⟩
        exact (emailTailDot_iff _).mpr ⟨c, rfl, hc, hallc⟩

/-- The email regex accepts exactly the strings of the form
`local@domain.tld` with `local`, `domain`, `tld` non-empty runs of
non-whitespace, non-`@` characters (`domain`/`tld` may contain further
dots). -/
theorem emailTest_iff (s : String) :
    emailTest s = true ↔
      ∃ a b c : List Char,
        s.data = a ++ '@' :: (b ++ '.' :: c) ∧ a ≠ [] ∧ b ≠ [] ∧ c ≠ [] ∧
        a.all emailChar = true ∧ b.all emailChar = true ∧ c.all emailChar = true := by
  unfold emailTest
  rw [matchPlusThen_iff]
  constructor
  · rintro ⟨x, y, hl, hx, hall, hy⟩
    obtain ⟨b, c, rfl, hb, hc, hallb, hallc⟩ := (emailTailAt_iff _).mp hy
    exact ⟨x, b, c, hl, hx, hb, hc, hall, hallb, hallc⟩
  · rintro ⟨a, b, c, hl, ha, hb, hc, halla, hallb, hallc⟩
    exact ⟨a, '@' :: (b ++ '.' :: c), hl, ha, halla,
      (emailTailAt_iff _).mpr ⟨b, c, rfl, hb, hc, hallb, hallc⟩⟩

theorem validateField_email_valid (req : Bool) (v : String) (slot : Option String)
    (h : jsTrim v ≠ "") :
    (validateField { required := req, type := "email", value := v, errorSlot := slot }).valid
      = emailTest (jsTrim v) := by
  have hbeq : (jsTrim v == "") = false := by
    simpa using h
  simp only [validateField, validationCore, hbeq, Bool.and_false, Bool.not_false,
    Bool.false_eq_true, if_false, Bool.bne_false]
  cases hx : emailTest (jsTrim v) <;> simp [hx, hbeq, h]

theorem validateField_tel_valid (req : Bool) (v : String) (slot : Option String)
    (h : jsTrim v ≠ "") :
    (validateField { required := req, type := "tel", value := v, errorSlot := slot }).valid
      = phoneTest (jsTrim v) := by
  have hbeq : (jsTrim v == "") = false := by
    simpa using h
  simp only [validateField, validationCore, hbeq, Bool.and_false, Bool.not_false,
    Bool.false_eq_true, if_false, Bool.bne_false]
  cases hx : phoneTest (jsTrim v) <;> simp [hx, hbeq, h]

/-- Every error message `validationCore` can produce on failure is
non-empty. -/
theorem validationCore_msg_ne (f : Field) :
    (validationCore f).1 = false → (validationCore f).2 ≠ "" := by
  unfold validationCore
  split
  · intro _; decide
  · split
    · split
      · intro _; decide
      · intro h; simp at h
    · split
      · split
        · intro _; decide
        · intro h; simp at h
      · intro h; simp at h

/-! ## Claim theorems -/

/-- **C3, counterexample.**  The claim reads: a non-empty email value is
judged valid *iff* it has at least one `@`, at least one `.` after it, and
no whitespace.  The value `"a@b."` satisfies that characterisation, yet
`validateField` judges it invalid (the regex requires a non-empty run after
the dot), so the stated equivalence is false. -/
theorem email_gloss_counterexample :
    specEmailGloss "a@b." = true ∧
    (validateField { required := true, type := "email", value := "a@b.", errorSlot := some "" }).valid = false := by
  constructor
  · decide
  · decide

/-- **C3, amended.**  For every field of type `email` whose trimmed value is
non-empty, `validateField` judges it valid iff the trimmed value has the
shape `local@domain.tld`: a non-empty run of non-whitespace non-`@`
characters, then `@`, then a non-empty run, then `.`, then a non-empty run
(the last two runs may contain further dots).  In particular `"a@b.co"` is
valid and `"abc"` is invalid with the "valid email" message. -/
theorem validateField_email_characterisation :
    (∀ (req : Bool) (v : String) (slot : Option String), jsTrim v ≠ "" →
        ((validateField { required := req, type := "email", value := v, errorSlot := slot }).valid = true ↔
          ∃ a b c : List Char,
            (jsTrim v).data = a ++ '@' :: (b ++ '.' :: c) ∧
            a ≠ [] ∧ b ≠ [] ∧ c ≠ [] ∧
            a.all emailChar = true ∧ b.all emailChar = true ∧
            c.all emailChar = true)) ∧
    (validateField { required := true, type := "email", value := "a@b.co", errorSlot := some "" }).valid = true ∧
    validateField { required := true, type := "email", value := "abc", errorSlot := some "" } =
      { valid := false, errorSlot := some "Please enter a valid email address" } := by
  refine ⟨?_, by decide, by decide⟩
  intro req v slot h
  rw [validateField_email_valid req v slot h]
  exact emailTest_iff _

/-- **C3, witness.** -/
theorem validateField_email_characterisation_witness :
    (validateField { required := true, type := "email", value := "x@y.z", errorSlot := some "" }).valid = true :=
  (validateField_email_characterisation.1 true "x@y.z" (some "") (by decide)).mpr
    ⟨['x'], ['y'], ['z'], by decide, by decide, by decide, by decide, by decide,
      by decide, by decide⟩

/-- **C8, counterexample.**  The claim reads: a non-empty phone value is
judged valid *iff* the value is 10–15 characters drawn from digits, space,
`-`, `+`, `(`, `)`.  The 16-character value `"   1234567890   "` fails that
characterisation, yet `validateField` judges it valid, because the code
tests the *trimmed* value (10 digits) — so the stated equivalence is
false. -/
theorem phone_gloss_counterexample :
    specPhoneGloss "   1234567890   " = false ∧
    (validateField { required := true, type := "tel", value := "   1234567890   ", errorSlot := some "" }).valid = true := by
  constructor
  · decide
  · decide

/-- **C8, amended.**  For every field of type `tel` whose trimmed value is
non-empty, `validateField` judges it valid iff the *trimmed* value is 10 to
15 characters, each a digit, a whitespace character (space, tab, …), `-`,
`+`, `(` or `)`.  In particular `"+91 98765 43210"` is valid and `"12345"`
is invalid with the "valid phone number" message. -/
theorem validateField_phone_characterisation :
    (∀ (req : Bool) (v : String) (slot : Option String), jsTrim v ≠ "" →
        ((validateField { required := req, type := "tel", value := v, errorSlot := slot }).valid = true ↔
          (10 ≤ (jsTrim v).data.length ∧ (jsTrim v).data.length ≤ 15 ∧
            ∀ c ∈ (jsTrim v).data, phoneChar c = true))) ∧
    (validateField { required := true, type := "tel", value := "+91 98765 43210", errorSlot := some "" }).valid = true ∧
    validateField { required := true, type := "tel", value := "12345", errorSlot := some "" } =
      { valid := false, errorSlot := some "Please enter a valid phone number" } := by
  refine ⟨?_, by decide, by decide⟩
  intro req v slot h
  rw [validateField_tel_valid req v slot h]
  unfold phoneTest
  simp [List.all_eq_true, and_assoc]

/-- **C8, witness.** -/
theorem validateField_phone_characterisation_witness :
    (validateField { required := true, type := "tel", value := "0123456789", errorSlot := some "" }).valid = true :=
  (validateField_phone_characterisation.1 true "0123456789" (some "") (by decide)).mpr
    ⟨by decide, by decide, by decide⟩

/-- **C6, counterexample.**  The claim reads: after `validateField` runs,
the displayed error message is empty iff the field is judged valid.  For an
empty, non-required email field whose slot still shows a stale message (as
after typing an invalid address and deleting it), `validateField` returns
`true` through the early skip at lines 140–142 *without clearing the slot*,
so the field is valid while the displayed message is non-empty. -/
theorem validate_message_iff_counterexample :
    ¬ (((validateField { required := false, type := "email", value := "", errorSlot := some "Please enter a valid email address" }).errorSlot = some "") ↔
        (validateField { required := false, type := "email", value := "", errorSlot := some "Please enter a valid email address" }).valid = true) := by
  decide

/-- **C6, amended.**  For every field with an error slot that is required or
has a non-empty trimmed value, after `validateField` runs the displayed
message is empty iff the field is judged valid; an empty non-required field
is judged valid but returns before the slot is touched, so the slot keeps
whatever it showed before (it shows no message only if it was already
empty). -/
theorem validateField_message_iff_valid :
    (∀ f : Field, f.required = false → jsTrim f.value = "" →
        validateField f = { valid := true, errorSlot := f.errorSlot }) ∧
    (∀ f : Field, f.errorSlot.isSome = true →
        (f.required = true ∨ jsTrim f.value ≠ "") →
        (((validateField f).errorSlot = some "") ↔ (validateField f).valid = true)) := by
  constructor
  · intro f hreq hval
    simp [validateField, hreq, hval]
  · intro f hslot hcond
    obtain ⟨s, hs⟩ := Option.isSome_iff_exists.mp hslot
    have hguard : (!f.required && (jsTrim f.value == "")) = false := by
      rcases hcond with h | h
      · simp [h]
      · simp [h]
    unfold validateField
    rw [hguard]
    simp only [Bool.false_eq_true, if_false, hs]
    cases hr : (validationCore f).1 with
    | true => simp
    | false =>
        have hmsg := validationCore_msg_ne f hr
        simp [hmsg]

/-- **C6, witness.** -/
theorem validateField_message_iff_valid_witness :
    (validateField { required := true, type := "text", value := "hello", errorSlot := some "old" }).errorSlot = some "" ↔
    (validateField { required := true, type := "text", value := "hello", errorSlot := some "old" }).valid = true :=
  validateField_message_iff_valid.2
    { required := true, type := "text", value := "hello", errorSlot := some "old" }
    (by decide) (Or.inl rfl)

theorem validateRequiredPhase_msgRegion (p : FormPage) :
    (validateRequiredPhase p).msgRegion = p.msgRegion := rfl

theorem validateRequiredPhase_values (p : FormPage) :
    (validateRequiredPhase p).fields.map Field.value = p.fields.map Field.value := by
  unfold validateRequiredPhase
  simp only [List.map_map]
  refine List.map_congr_left fun f _ => ?_
  by_cases h : f.required <;> simp [h, Function.comp]

/-- **C1.**  When every required field validates and the message region is
present: the handler shows the "Sending your message..." info banner
synchronously (the `Sending` state), schedules exactly the success step at a
fixed 1500 ms delay, and that step shows the fixed thank-you success banner
(the `Success` state), clears every field, and scrolls the message region
into view, completing without an exception. -/
theorem handleFormSubmit_valid_path (p : FormPage) (r : MsgRegion)
    (hv : formAllRequiredValid p.fields = true)
    (hr : p.msgRegion = some r) :
    handleFormSubmit p.fields =
      { immediate := [.showMessage sendingText .info],
        delayed := some (1500,
          [.showMessage thankYouText .success, .resetForm, .scrollIntoView]) } ∧
    ∃ p2 p3, runSubmit p = (.ok p2, .ok p3) ∧
      p2.msgRegion = some { text := sendingText, kind := some .info } ∧
      p2.fields.map Field.value = p.fields.map Field.value ∧
      p3.msgRegion = some { text := thankYouText, kind := some .success } ∧
      ∀ f ∈ p3.fields, f.value = "" := by
  have htrace : handleFormSubmit p.fields =
      { immediate := [.showMessage sendingText .info],
        delayed := some (1500,
          [.showMessage thankYouText .success, .resetForm, .scrollIntoView]) } := by
    simp [handleFormSubmit, hv]
  refine ⟨htrace, ?_⟩
  have h1 : (validateRequiredPhase p).msgRegion = some r := by
    rw [validateRequiredPhase_msgRegion, hr]
  refine ⟨{ validateRequiredPhase p with
              msgRegion := some { text := sendingText, kind := some .info } },
          { fields := (validateRequiredPhase p).fields.map fun f => { f with value := "" },
            msgRegion := some { text := thankYouText, kind := some .success } },
          ?_, rfl, ?_, rfl, ?_⟩
  · unfold runSubmit
    rw [htrace]
    simp only [runActions, runSubmitAction, showFormMessage, h1]
  · have := validateRequiredPhase_values p
    simpa using this
  · intro f hf
    simp only [List.mem_map] at hf
    obtain ⟨g, -, rfl⟩ := hf
    rfl

/-- **C1, witness.** -/
theorem handleFormSubmit_valid_path_witness :
    handleFormSubmit
        [{ required := true, type := "text", value := "hi", errorSlot := some "" }] =
      { immediate := [.showMessage sendingText .info],
        delayed := some (1500,
          [.showMessage thankYouText .success, .resetForm, .scrollIntoView]) } ∧
    ∃ p2 p3,
      runSubmit
          { fields := [{ required := true, type := "text", value := "hi", errorSlot := some "" }],
            msgRegion := some { text := "", kind := none } } = (.ok p2, .ok p3) ∧
      p2.msgRegion = some { text := sendingText, kind := some .info } ∧
      p2.fields.map Field.value =
        ([{ required := true, type := "text", value := "hi", errorSlot := some "" }] :
          List Field).map Field.value ∧
      p3.msgRegion = some { text := thankYouText, kind := some .success } ∧
      ∀ f ∈ p3.fields, f.value = "" :=
  handleFormSubmit_valid_path
    { fields := [{ required := true, type := "text", value := "hi", errorSlot := some "" }],
      msgRegion := some { text := "", kind := none } }
    { text := "", kind := none } (by decide) rfl

/-- **C2.**  When at least one required field fails validation and the
message region is present: the handler shows only the aggregate error banner
(the `Error` state), schedules nothing (no delay, so the `Sending` banner is
never shown), and leaves every field value untouched. -/
theorem handleFormSubmit_invalid_path (p : FormPage) (r : MsgRegion)
    (hv : formAllRequiredValid p.fields = false)
    (hr : p.msgRegion = some r) :
    handleFormSubmit p.fields =
      { immediate := [.showMessage errorBannerText .error], delayed := none } ∧
    ∃ p2, runSubmit p = (.ok p2, .ok p2) ∧
      p2.msgRegion = some { text := errorBannerText, kind := some .error } ∧
      p2.fields.map Field.value = p.fields.map Field.value := by
  have htrace : handleFormSubmit p.fields =
      { immediate := [.showMessage errorBannerText .error], delayed := none } := by
    simp [handleFormSubmit, hv]
  refine ⟨htrace, ?_⟩
  have h1 : (validateRequiredPhase p).msgRegion = some r := by
    rw [validateRequiredPhase_msgRegion, hr]
  refine ⟨{ validateRequiredPhase p with
              msgRegion := some { text := errorBannerText, kind := some .error } },
          ?_, rfl, ?_⟩
  · unfold runSubmit
    rw [htrace]
    simp only [runActions, runSubmitAction, showFormMessage, h1]
  · have := validateRequiredPhase_values p
    simpa using this

/-- **C2, witness.** -/
theorem handleFormSubmit_invalid_path_witness :
    handleFormSubmit
        [{ required := true, type := "text", value := "", errorSlot := some "" }] =
      { immediate := [.showMessage errorBannerText .error], delayed := none } ∧
    ∃ p2,
      runSubmit
          { fields := [{ required := true, type := "text", value := "", errorSlot := some "" }],
            msgRegion := some { text := "", kind := none } } = (.ok p2, .ok p2) ∧
      p2.msgRegion = some { text := errorBannerText, kind := some .error } ∧
      p2.fields.map Field.value =
        ([{ required := true, type := "text", value := "", errorSlot := some "" }] :
          List Field).map Field.value :=
  handleFormSubmit_invalid_path
    { fields := [{ required := true, type := "text", value := "", errorSlot := some "" }],
      msgRegion := some { text := "", kind := none } }
    { text := "", kind := none } (by decide) rfl

/-- **C4.**  The claim says neither `validateField` nor the submission
handler can fail when an expected DOM target is absent.  The display steps
are indeed skipped silently (`showFormMessage` checks `if (!element)
return;`, and `validateField` only writes the slot when `errorElement` is
truthy), but the post-delay success step of `handleFormSubmit` calls
`formMessage.scrollIntoView(...)` (line 228) with no null guard: on a fully
valid form in a document with no `#formMessage` element, the synchronous
part completes with every display step skipped, and the delayed step throws
a `TypeError`. -/
theorem submit_missing_region_throws :
    runSubmit
        { fields := [{ required := true, type := "text", value := "hi", errorSlot := none }],
          msgRegion := none } =
      (.ok { fields := [{ required := true, type := "text", value := "hi", errorSlot := none }],
             msgRegion := none },
       .error .typeError) := rfl

/-- **C9.**  After a filter click with tag `t`, once the scheduled timeouts
have fired, an item is in layout (`display:block`) iff `t` is `"all"` or the
item's space-separated category set contains `t`, and is removed from layout
(`display:none`) otherwise. -/
theorem applyFilterSettled_shows_iff (tag category : String) (s : ItemStyle) :
    ((applyFilterSettled tag category s).display = "block" ↔
      (tag = "all" ∨ tag ∈ category.splitOn " ")) ∧
    ((applyFilterSettled tag category s).display = "none" ↔
      ¬ (tag = "all" ∨ tag ∈ category.splitOn " ")) := by
  by_cases h : tag = "all" ∨ tag ∈ category.splitOn " "
  · have hb : filterShows tag category = true := by
      simpa [filterShows] using h
    unfold applyFilterSettled
    rw [hb]
    simp only [if_true]
    constructor
    · constructor
      · intro _
        exact h
      · intro _
        trivial
    · constructor
      · intro hd
        exact absurd hd (by decide)
      · intro hn
        exact absurd h hn
  · have hb : filterShows tag category = false := by
      rw [Bool.eq_false_iff]
      intro hc
      apply h
      simpa [filterShows] using hc
    unfold applyFilterSettled
    rw [hb]
    simp only [Bool.false_eq_true, if_false]
    constructor
    · constructor
      · intro hd
        exact absurd hd (by decide)
      · intro hs2
        exact absurd hs2 h
    · constructor
      · intro _
        exact h
      · intro _
        trivial

/-! ## FAQ accordion lemmas -/

theorem otherPane_aActive (p : FaqPane) (h : p.qActive = p.aActive) :
    (otherPane p).aActive = false := by
  unfold otherPane
  cases hq : p.qActive
  · simp only [Bool.false_eq_true, if_false]
    rw [← h, hq]
  · simp

theorem otherPane_synced (p : FaqPane) (h : p.qActive = p.aActive) :
    (otherPane p).qActive = (otherPane p).aActive := by
  unfold otherPane
  cases hq : p.qActive
  · simp only [Bool.false_eq_true, if_false]
    exact h
  · simp

theorem clickedPane_synced (p : FaqPane) (h : p.qActive = p.aActive) :
    (clickedPane p).qActive = (clickedPane p).aActive := by
  unfold clickedPane
  cases ha : p.aActive
  · simp only [Bool.false_eq_true, if_false]
    rw [h, ha]
    rfl
  · simp only [if_true]
    rw [h, ha]
    rfl

theorem clickedPane_aActive (p : FaqPane) :
    (clickedPane p).aActive = !p.aActive := by
  unfold clickedPane
  cases ha : p.aActive <;> simp [ha]

theorem allSynced_cons (p : FaqPane) (ps : List FaqPane) :
    allSynced (p :: ps) = ((p.qActive == p.aActive) && allSynced ps) := by
  simp [allSynced]

theorem allSynced_map_otherPane (ps : List FaqPane) (h : allSynced ps = true) :
    allSynced (ps.map otherPane) = true := by
  induction ps with
  | nil => rfl
  | cons p ps ih =>
      rw [allSynced_cons, Bool.and_eq_true, beq_iff_eq] at h
      simp only [List.map_cons, allSynced_cons, Bool.and_eq_true, beq_iff_eq]
      exact ⟨otherPane_synced p h.1, ih h.2⟩

theorem expandedCount_map_otherPane (ps : List FaqPane) (h : allSynced ps = true) :
    expandedCount (ps.map otherPane) = 0 := by
  unfold expandedCount
  rw [List.countP_eq_zero]
  intro q hq
  simp only [List.mem_map] at hq
  obtain ⟨p, hp, rfl⟩ := hq
  have hsync : p.qActive = p.aActive := by
    unfold allSynced at h
    rw [List.all_eq_true] at h
    simpa using h p hp
  simp [otherPane_aActive p hsync]

theorem faqClick_synced (i : Nat) (ps : List FaqPane) (h : allSynced ps = true) :
    allSynced (faqClick i ps) = true := by
  induction ps generalizing i with
  | nil => cases i <;> rfl
  | cons p ps ih =>
      rw [allSynced_cons, Bool.and_eq_true, beq_iff_eq] at h
      cases i with
      | zero =>
          simp only [faqClick, allSynced_cons, Bool.and_eq_true, beq_iff_eq]
          exact ⟨clickedPane_synced p h.1, allSynced_map_otherPane ps h.2⟩
      | succ i =>
          simp only [faqClick, allSynced_cons, Bool.and_eq_true, beq_iff_eq]
          exact ⟨otherPane_synced p h.1, ih i h.2⟩

theorem expandedCount_cons (p : FaqPane) (ps : List FaqPane) :
    expandedCount (p :: ps) = expandedCount ps + (if p.aActive then 1 else 0) := by
  simp [expandedCount, List.countP_cons]

theorem faqClick_expandedCount (i : Nat) (ps : List FaqPane) (h : allSynced ps = true) :
    expandedCount (faqClick i ps) ≤ 1 := by
  induction ps generalizing i with
  | nil => simp [faqClick, expandedCount]
  | cons p ps ih =>
      rw [allSynced_cons, Bool.and_eq_true, beq_iff_eq] at h
      cases i with
      | zero =>
          simp only [faqClick]
          rw [expandedCount_cons, expandedCount_map_otherPane ps h.2]
          split <;> simp
      | succ i =>
          simp only [faqClick]
          rw [expandedCount_cons, otherPane_aActive p h.1]
          simpa using ih i h.2

theorem faqClick_getD_ne (i j : Nat) (ps : List FaqPane) (d : FaqPane)
    (h : allSynced ps = true) (hj : j < ps.length) (hne : j ≠ i) :
    ((faqClick i ps).getD j d).aActive = false := by
  induction ps generalizing i j with
  | nil => simp at hj
  | cons p ps ih =>
      rw [allSynced_cons, Bool.and_eq_true, beq_iff_eq] at h
      cases i with
      | zero =>
          cases j with
          | zero => exact absurd rfl hne
          | succ j =>
              simp only [faqClick, List.getD_cons_succ]
              have hj' : j < (ps.map otherPane).length := by
                simpa using Nat.lt_of_succ_lt_succ hj
              have hmem : (ps.map otherPane).getD j d ∈ ps.map otherPane := by
                rw [List.getD_eq_getElem _ _ hj']
                exact List.getElem_mem _
              simp only [List.mem_map] at hmem
              obtain ⟨q, hq, heq⟩ := hmem
              have hsync : q.qActive = q.aActive := by
                unfold allSynced at h
                have := h.2
                rw [List.all_eq_true] at this
                simpa using this q hq
              rw [← heq]
              exact otherPane_aActive q hsync
      | succ i =>
          cases j with
          | zero =>
              simp only [faqClick, List.getD_cons_zero]
              exact otherPane_aActive p h.1
          | succ j =>
              simp only [faqClick, List.getD_cons_succ]
              exact ih i j h.2 (Nat.lt_of_succ_lt_succ hj)
                (fun hh => hne (by rw [hh]))

theorem faqClick_getD_eq (i : Nat) (ps : List FaqPane) (d : FaqPane)
    (hi : i < ps.length) :
    (faqClick i ps).getD i d = clickedPane (ps.getD i d) := by
  induction ps generalizing i with
  | nil => simp at hi
  | cons p ps ih =>
      cases i with
      | zero => simp [faqClick]
      | succ i =>
          simp only [faqClick, List.getD_cons_succ]
          exact ih i (Nat.lt_of_succ_lt_succ hi)

theorem initPanes_synced (hs : List Nat) : allSynced (initPanes hs) = true := by
  unfold allSynced initPanes
  rw [List.all_eq_true]
  intro p hp
  simp only [List.mem_map] at hp
  obtain ⟨h, -, rfl⟩ := hp
  rfl

theorem expandedCount_initPanes (hs : List Nat) : expandedCount (initPanes hs) = 0 := by
  unfold expandedCount initPanes
  rw [List.countP_eq_zero]
  intro p hp
  simp only [List.mem_map] at hp
  obtain ⟨h, -, rfl⟩ := hp
  simp

/-- **C7.**  The accordion keeps at most one answer expanded: (1) from the
freshly-loaded accordion, any sequence of question clicks leaves at most one
answer expanded; (2) a click on question `i` collapses every other pane, so
clicking B while A is expanded leaves A collapsed; and (3) the clicked
pane's answer is toggled: an expanded answer collapses, a collapsed one
expands (so B ends expanded). -/
theorem faq_at_most_one_open :
    (∀ (hs : List Nat) (clicks : List Nat),
        expandedCount (clicks.foldl (fun panes i => faqClick i panes) (initPanes hs)) ≤ 1) ∧
    (∀ (panes : List FaqPane) (i j : Nat) (d : FaqPane),
        allSynced panes = true → j < panes.length → j ≠ i →
        ((faqClick i panes).getD j d).aActive = false) ∧
    (∀ (panes : List FaqPane) (i : Nat) (d : FaqPane),
        allSynced panes = true → i < panes.length →
        ((faqClick i panes).getD i d).aActive = !(panes.getD i d).aActive) := by
  refine ⟨?_, fun panes i j d => faqClick_getD_ne i j panes d, ?_⟩
  · intro hs clicks
    have main : ∀ (cs : List Nat) (panes : List FaqPane), allSynced panes = true →
        expandedCount panes ≤ 1 →
        expandedCount (cs.foldl (fun panes i => faqClick i panes) panes) ≤ 1 := by
      intro cs
      induction cs with
      | nil => intro panes _ h2; exact h2
      | cons c cs ih =>
          intro panes h1 _
          exact ih (faqClick c panes) (faqClick_synced c panes h1)
            (faqClick_expandedCount c panes h1)
    exact main clicks (initPanes hs) (initPanes_synced hs)
      (by rw [expandedCount_initPanes]; exact Nat.zero_le 1)
  · intro panes i d h hi
    rw [faqClick_getD_eq i panes d hi]
    exact clickedPane_aActive _

/-- **C7, witness.** -/
theorem faq_at_most_one_open_witness :
    expandedCount
        (([1, 0] : List Nat).foldl (fun panes i => faqClick i panes) (initPanes [40, 60])) ≤ 1 ∧
    ((faqClick 1
        [{ qActive := true, aActive := true, maxHeight := some 40, scrollHeight := 40 },
         { qActive := false, aActive := false, maxHeight := none, scrollHeight := 60 }]).getD 0
        { qActive := false, aActive := false, maxHeight := none, scrollHeight := 0 }).aActive
      = false ∧
    ((faqClick 1
        [{ qActive := true, aActive := true, maxHeight := some 40, scrollHeight := 40 },
         { qActive := false, aActive := false, maxHeight := none, scrollHeight := 60 }]).getD 1
        { qActive := false, aActive := false, maxHeight := none, scrollHeight := 0 }).aActive
      = !(([{ qActive := true, aActive := true, maxHeight := some 40, scrollHeight := 40 },
            { qActive := false, aActive := false, maxHeight := none, scrollHeight := 60 }] :
            List FaqPane).getD 1
          { qActive := false, aActive := false, maxHeight := none, scrollHeight := 0 }).aActive :=
  ⟨faq_at_most_one_open.1 [40, 60] [1, 0],
   faq_at_most_one_open.2.1 _ 1 0 _ (by decide) (by decide) (by decide),
   faq_at_most_one_open.2.2 _ 1 _ (by decide) (by decide)⟩

/-- **C10.**  Once a tracked element is revealed, no further invocation of
the reveal logic un-reveals it: for every sequence of invocations of the
per-element body of `handleScrollAnimations` — each with its own viewport
height and element rect top — the revealed styles survive. -/
theorem revealStep_monotonic (s : ElemStyle) (events : List (ℚ × ℚ))
    (h : revealedStyle s = true) :
    revealedStyle (events.foldl (fun st e => revealStep e.1 e.2 st) s) = true := by
  induction events generalizing s with
  | nil => exact h
  | cons e es ih =>
      simp only [List.foldl_cons]
      apply ih
      unfold revealStep
      split
      · rfl
      · exact h

/-- **C10, witness.** -/
theorem revealStep_monotonic_witness :
    revealedStyle
        (([(900, 1000), (900, 100)] : List (ℚ × ℚ)).foldl
          (fun st e => revealStep e.1 e.2 st)
          { opacity := "1", transform := "translateY(0)" }) = true :=
  revealStep_monotonic { opacity := "1", transform := "translateY(0)" }
    [(900, 1000), (900, 100)] (by decide)

/-- **C5.**  The claim says that on a viewport of width at most 768 logical
pixels the reveal logic never runs and never mutates a tracked element's
style.  `initScrollAnimations` (line 346) does guard its own scroll listener
and on-load call with `window.innerWidth > 768` — consistent with its
comment "Only run animations if page is not too heavy on mobile" — but the
debounced listener registered at line 427 is attached unconditionally and
calls `handleScrollAnimations` after its 100 ms trailing timeout.  Concrete
run: viewport 500 × 900, a tracked element at rect top 100 styled hidden;
one scroll event leaves the style untouched (no direct listener), yet the
debounce timer then fires and rewrites the style to the revealed state. -/
theorem narrow_viewport_reveal_bug :
    ((500 : ℚ) ≤ 768) ∧
    (onScrollEvent { innerWidth := 500, innerHeight := 900, top := 100, style := { opacity := "0", transform := "translateY(20px)" }, debouncePending := false }).style
      = { opacity := "0", transform := "translateY(20px)" } ∧
    (onDebounceFire (onScrollEvent { innerWidth := 500, innerHeight := 900, top := 100, style := { opacity := "0", transform := "translateY(20px)" }, debouncePending := false })).style
      = { opacity := "1", transform := "translateY(0)" } := by
  have hw : initScrollAttached (500 : ℚ) = false := by
    simp only [initScrollAttached, decide_eq_false_iff_not]
    norm_num
  have ht : (100 : ℚ) < 900 / (6 / 5 : ℚ) := by norm_num
  refine ⟨by norm_num, ?_, ?_⟩
  · simp [onScrollEvent, hw]
  · simp [onScrollEvent, onDebounceFire, hw, revealStep, ht]

end Nilesh
